import Mathlib

/-!
Verification of the smart-toggle camera streaming server (`main.py`).

The development shallowly embeds the orchestration core of the server:
`SmartToggleManager` (the toggle state machine plus pipeline supervision),
`SystemMonitor.get_system_status`, and `ConnectionManager`.

Modelling conventions:
* Python `asyncio` code is serialized (everything of interest runs under
  `switch_lock`), so every method becomes a pure state-passing function.
* OS interaction is abstracted into explicit environment records: for each
  subprocess-touching step the environment says whether the step raised an
  exception, whether a spawned process died early, whether the HLS manifest
  appeared, etc.  The set of currently running OS processes is tracked as a
  list of pids (`running`), separate from the manager's handle dictionary,
  so that orphaned processes are observable.
* The `processes` dict of the Python code only ever holds both keys
  (`rpicam` and `ffmpeg`, assigned together) or neither (after `clear()`),
  so it is modelled as `Option ProcPair`.
* Stream-directory file manipulation (creating/unlinking segment files) has
  no bearing on any claim and is not modelled; log output is likewise
  dropped.  Floating-point metrics are modelled with `Rat`.
* One source-level fact drives the distinction between the code as written
  and the code as executed: in `_safe_stop_current_camera` the call
  `await asyncio.wait_for(proc.wait(), timeout)` is applied to
  `subprocess.Popen.wait()`, which returns an `int`, so it deterministically
  raises `TypeError` — every executed termination step takes the raising
  path and a teardown with a held pair always returns failure.  The model
  keeps the written (dead) branches behind environment outcomes so the
  translation matches the source line by line; `StopEnv.Real` singles out
  the realizable outcome, and statements about real executions are proved
  over `Real` environments and reachability under them.
-/

/-- Camera pipeline state, `CameraState` in `main.py`. -/
inductive CameraState
  | STOPPED
  | STARTING
  | RUNNING
  | STOPPING
  | SWITCHING
  | ERROR
deriving DecidableEq, Repr

/-- Host health classification, `SystemState` in `main.py`. -/
inductive SystemState
  | NORMAL
  | WARNING
  | CRITICAL
deriving DecidableEq, Repr

/-- Camera configuration, `CameraConfig` in `main.py` (pydantic model). -/
structure CameraConfig where
  camera_id : Nat
  width : Nat := 640
  height : Nat := 480
  framerate : Nat := 30
  quality : Nat := 26
  preset : String := "ultrafast"
deriving DecidableEq, Repr

/-- Host metrics snapshot, `SystemStatus` in `main.py`.  Timestamps are
abstract naturals. -/
structure SystemStatus where
  cpu_percent : Rat
  cpu_temp : Rat
  memory_percent : Rat
  disk_percent : Rat
  uptime : String
  state : SystemState
  timestamp : Nat
deriving DecidableEq, Repr

/-- Toggle status snapshot, `SmartToggleStatus` in `main.py`. -/
structure SmartToggleStatus where
  active_camera : Option Nat
  camera_state : CameraState
  switch_progress : Nat
  switch_message : String
  last_switch_time : Option Nat
  system_protected : Bool
deriving DecidableEq, Repr

/-- `MAX_CONNECTIONS` in `main.py` (safe concurrent viewer bound). -/
def MAX_CONNECTIONS : Nat := 12

/-- The pair of OS process handles held in `SmartToggleManager.processes`
(keys `rpicam` and `ffmpeg`), identified by pid. -/
structure ProcPair where
  rpicam : Nat
  ffmpeg : Nat
deriving DecidableEq, Repr

/-- Mutable fields of `SmartToggleManager` (the lock is implicit in the
sequential model). -/
structure ManagerState where
  active_camera : Option Nat
  camera_state : CameraState
  processes : Option ProcPair
  switch_progress : Nat
  switch_message : String
  last_switch_time : Option Nat
  system_protected : Bool
  active_connections : Nat
deriving DecidableEq, Repr

/-- Manager state together with the set of OS processes actually running
(pids).  A pid in `running` but not in `mgr.processes` is an orphan. -/
structure Sys where
  mgr : ManagerState
  running : List Nat
deriving DecidableEq, Repr

/-- Outcome of one termination step of `_safe_stop_current_camera` as the
code is WRITTEN: the process exits within the bounded wait, is force-killed
after the timeout handler fires, or the step raises an exception that
aborts the method.  In the source the step is `proc.send_signal(SIGTERM)`
followed by `await asyncio.wait_for(proc.wait(), timeout)`; since
`subprocess.Popen.wait()` is synchronous and returns an `int` rather than
an awaitable, `asyncio.wait_for` deterministically raises `TypeError` (not
`asyncio.TimeoutError`) — after the SIGTERM has been delivered and the
blocking `wait()` has reaped the process.  So `raisesExc` is the only
outcome an executed step can actually produce (see `StopEnv.Real`); the
other two constructors model the handler branches the code was written
for, which are unreachable at runtime. -/
inductive TermOutcome
  | exits
  | killedAfterTimeout
  | raisesExc
deriving DecidableEq, Repr

/-- Environment for one `_safe_stop_current_camera` call: the outcome of
the termination step of each of the two pipeline processes.  Real
executions of the source always take the raising outcome at the first
executed step (`StopEnv.Real`); quantifying over all environments covers
the written-but-dead branches as well, so theorems over all environments
hold a fortiori of real executions. -/
structure StopEnv where
  ffmpegStop : TermOutcome
  rpicamStop : TermOutcome
deriving DecidableEq, Repr

/-- Environment for one `_safe_start_camera` call: whether each `Popen`
raises, the pids obtained on success, whether each process dies during the
2-second settle check, whether `index.m3u8` appears within the 8-second
poll, and whether the per-process cleanup step of `_cleanup_failed_start`
raises. -/
structure StartEnv where
  rpicamSpawnOk : Bool
  rpicamPid : Nat
  ffmpegSpawnOk : Bool
  ffmpegPid : Nat
  rpicamEarlyExit : Bool
  ffmpegEarlyExit : Bool
  manifestOk : Bool
  cleanupRpicamRaises : Bool
  cleanupFfmpegRaises : Bool
deriving DecidableEq, Repr

/-- Remove a pid from the running-process list (SIGTERM/SIGKILL landed). -/
def removePid (pid : Nat) (w : List Nat) : List Nat :=
  w.filter (fun p => p != pid)

/-- `rpicam-vid` command line assembled by `_safe_start_camera`. -/
def rpicam_cmd (camera_id : Nat) (config : CameraConfig) : List String :=
  ["rpicam-vid",
   "--camera", toString camera_id,
   "--width", toString config.width,
   "--height", toString config.height,
   "--framerate", toString config.framerate,
   "-t", "0",
   "-o", "-",
   "--codec", "mjpeg",
   "--flush"]

/-- `HLS_SEGMENT_TIME` in `main.py`. -/
def HLS_SEGMENT_TIME : Nat := 2

/-- `HLS_PLAYLIST_SIZE` in `main.py`. -/
def HLS_PLAYLIST_SIZE : Nat := 3

/-- `ffmpeg` HLS command line assembled by `_safe_start_camera`. -/
def ffmpeg_cmd (camera_id : Nat) (config : CameraConfig) : List String :=
  ["ffmpeg",
   "-f", "mjpeg",
   "-i", "-",
   "-c:v", "libx264",
   "-preset", config.preset,
   "-crf", toString config.quality,
   "-tune", "zerolatency",
   "-g", toString config.framerate,
   "-keyint_min", toString config.framerate,
   "-sc_threshold", "0",
   "-f", "hls",
   "-hls_time", toString HLS_SEGMENT_TIME,
   "-hls_list_size", toString HLS_PLAYLIST_SIZE,
   "-hls_flags", "delete_segments+independent_segments",
   "-hls_segment_filename", "/tmp/stream/cam" ++ toString camera_id ++ "/seg_%03d.ts",
   "/tmp/stream/cam" ++ toString camera_id ++ "/index.m3u8"]

/-- `SmartToggleManager._safe_stop_current_camera`.  Returns `(result,
state)`.  With an empty handle dict it returns `True` untouched.  Otherwise
it sets `STOPPING` and runs the `ffmpeg` termination step; because an
executed step always raises (see `TermOutcome`), the real method then
returns `False` from the outer `except` with the handle dict NOT cleared —
the `rpicam` step, the `processes.clear()` and the `return True` are dead
code in the source.  They are modelled anyway, guarded by the impossible
non-raising outcomes, so that the translation follows the source line by
line; theorems about real executions restrict the environment with
`StopEnv.Real`.  A raising step still removes the signalled process from
`running`, since the SIGTERM delivery and the reaping `wait()` precede the
`TypeError`.  Stream-file deletion is not modelled. -/
def safe_stop_current_camera (env : StopEnv) (s : Sys) : Bool × Sys :=
  match s.mgr.processes with
  | none => (true, s)
  | some pair =>
    let m1 := { s.mgr with camera_state := CameraState.STOPPING }
    match env.ffmpegStop with
    | TermOutcome.raisesExc =>
      (false, { mgr := m1, running := removePid pair.ffmpeg s.running })
    | _ =>
      let w1 := removePid pair.ffmpeg s.running
      match env.rpicamStop with
      | TermOutcome.raisesExc =>
        (false, { mgr := m1, running := removePid pair.rpicam w1 })
      | _ =>
        let w2 := removePid pair.rpicam w1
        (true, { mgr := { m1 with processes := none }, running := w2 })

/-- One iteration of the `for name, proc in self.processes.items()` loop of
`_cleanup_failed_start`: when the process is still alive (`poll() is
None`), terminate it, escalating to kill; an exception in the step is
caught and leaves the process alive. -/
def cleanup_process_step (pid : Nat) (raises : Bool) (w : List Nat) : List Nat :=
  if pid ∈ w then (if raises then w else removePid pid w) else w

/-- `SmartToggleManager._cleanup_failed_start`.  Iterates the handle dict
(`rpicam` first, then `ffmpeg`); for each tracked process that is still
alive it terminates (escalating to kill), each step's exception being
caught and leaving that process alive; then it clears the handle dict
unconditionally. -/
def cleanup_failed_start (env : StartEnv) (s : Sys) : Sys :=
  let w :=
    match s.mgr.processes with
    | none => s.running
    | some pair =>
      cleanup_process_step pair.ffmpeg env.cleanupFfmpegRaises
        (cleanup_process_step pair.rpicam env.cleanupRpicamRaises s.running)
  { mgr := { s.mgr with processes := none }, running := w }

/-- `SmartToggleManager._safe_start_camera`.  Sets `STARTING`, prepares the
stream directory (not modelled), spawns `rpicam-vid` then `ffmpeg`
(each `Popen` may raise), records the pair in the handle dict only after
BOTH spawns succeed, settles 2 seconds and checks neither process died,
then polls for the manifest.  Every failure is caught, runs
`_cleanup_failed_start` on whatever the handle dict currently holds, and
returns `False`. -/
def safe_start_camera (camera_id : Nat) (config : CameraConfig) (env : StartEnv)
    (s : Sys) : Bool × Sys :=
  let _cmds := (rpicam_cmd camera_id config, ffmpeg_cmd camera_id config)
  let m60 := { s.mgr with camera_state := CameraState.STARTING, switch_progress := 60 }
  let m70 := { m60 with switch_progress := 70 }
  if env.rpicamSpawnOk = false then
    (false, cleanup_failed_start env { s with mgr := m70 })
  else
    let w1 := env.rpicamPid :: s.running
    let m80 := { m70 with switch_progress := 80 }
    if env.ffmpegSpawnOk = false then
      (false, cleanup_failed_start env { mgr := m80, running := w1 })
    else
      let w2 := env.ffmpegPid :: w1
      let m90 := { m80 with
        processes := some { rpicam := env.rpicamPid, ffmpeg := env.ffmpegPid },
        switch_progress := 90 }
      let w3 := if env.rpicamEarlyExit then removePid env.rpicamPid w2 else w2
      let w4 := if env.ffmpegEarlyExit then removePid env.ffmpegPid w3 else w3
      if env.rpicamEarlyExit then
        (false, cleanup_failed_start env { mgr := m90, running := w4 })
      else if env.ffmpegEarlyExit then
        (false, cleanup_failed_start env { mgr := m90, running := w4 })
      else if env.manifestOk = false then
        (false, cleanup_failed_start env { mgr := m90, running := w4 })
      else
        (true, { mgr := m90, running := w4 })

/-- Second phase of `SmartToggleManager.smart_switch_camera` (lines after
the teardown step): announce the start, run `_safe_start_camera`, and on
success promote to `RUNNING` with `active_camera := target`; on failure set
`ERROR` leaving `active_camera` untouched. -/
def smart_switch_start_phase (target_camera : Nat) (config : CameraConfig)
    (startEnv : StartEnv) (now : Nat) (s : Sys) : Bool × Sys :=
  let sa := { s with mgr := { s.mgr with
    switch_message := "카메라 " ++ toString target_camera ++ " 시작 중...",
    switch_progress := 50 } }
  let r := safe_start_camera target_camera config startEnv sa
  if r.1 then
    (true, { r.2 with mgr := { r.2.mgr with
      active_camera := some target_camera,
      camera_state := CameraState.RUNNING,
      switch_progress := 100,
      switch_message := "카메라 " ++ toString target_camera ++ " 활성화 완료",
      last_switch_time := some now } })
  else
    (false, { r.2 with mgr := { r.2.mgr with
      camera_state := CameraState.ERROR,
      switch_message := "카메라 " ++ toString target_camera ++ " 시작 실패" } })

/-- `SmartToggleManager.smart_switch_camera` (body under `switch_lock`).
Enters `SWITCHING`, tears the current camera down when one is active
(aborting to `ERROR` if teardown reports failure), then runs the start
phase.  `now` abstracts `datetime.now()`. -/
def smart_switch_camera (target_camera : Nat) (config : CameraConfig)
    (stopEnv : StopEnv) (startEnv : StartEnv) (now : Nat) (s : Sys) : Bool × Sys :=
  let s0 := { s with mgr := { s.mgr with
    camera_state := CameraState.SWITCHING,
    switch_progress := 0,
    switch_message := "카메라 " ++ toString target_camera ++ "로 전환 중..." } }
  match s0.mgr.active_camera with
  | some _ =>
    let s1 := { s0 with mgr := { s0.mgr with switch_message := "기존 카메라 정리 중..." } }
    let r := safe_stop_current_camera stopEnv s1
    if r.1 = false then
      (false, { r.2 with mgr := { r.2.mgr with
        camera_state := CameraState.ERROR,
        switch_message := "기존 카메라 정지 실패" } })
    else
      let s3 := { r.2 with mgr := { r.2.mgr with switch_progress := 40 } }
      smart_switch_start_phase target_camera config startEnv now s3
  | none => smart_switch_start_phase target_camera config startEnv now s0

/-- `SmartToggleManager.stop_all_cameras`: runs the safe teardown and then
unconditionally clears `active_camera` and sets `STOPPED`, returning the
teardown result. -/
def stop_all_cameras (env : StopEnv) (s : Sys) : Bool × Sys :=
  let r := safe_stop_current_camera env s
  (r.1, { r.2 with mgr := { r.2.mgr with
    active_camera := none,
    camera_state := CameraState.STOPPED,
    switch_progress := 0,
    switch_message := "모든 카메라 정지됨" } })

/-- `SmartToggleManager.get_status`. -/
def get_status (m : ManagerState) : SmartToggleStatus :=
  { active_camera := m.active_camera,
    camera_state := m.camera_state,
    switch_progress := m.switch_progress,
    switch_message := m.switch_message,
    last_switch_time := m.last_switch_time,
    system_protected := m.system_protected }

/-- Protection thresholds dictionary of `SmartToggleManager.__init__`. -/
structure ProtectionThresholds where
  cpu : Rat
  temp : Rat
  memory : Rat
  connections : Nat
deriving DecidableEq, Repr

/-- `self.protection_thresholds` in `SmartToggleManager.__init__`. -/
def protection_thresholds : ProtectionThresholds :=
  { cpu := 80, temp := 70, memory := 80, connections := MAX_CONNECTIONS }

/-- The connection-count disjunct of `check_system_protection`:
`self.active_connections > self.protection_thresholds['connections']`. -/
def conn_condition (m : ManagerState) : Bool :=
  protection_thresholds.connections < m.active_connections

/-- The `should_protect` boolean of `check_system_protection` (logical OR
of the four threshold comparisons). -/
def should_protect (stats : SystemStatus) (m : ManagerState) : Bool :=
  (protection_thresholds.cpu < stats.cpu_percent) ||
  (protection_thresholds.temp < stats.cpu_temp) ||
  (protection_thresholds.memory < stats.memory_percent) ||
  conn_condition m

/-- `SmartToggleManager.check_system_protection`, returning the value the
method returns (`self.system_protected` after the update). -/
def check_system_protection (stats : SystemStatus) (env : StopEnv) (s : Sys) :
    Bool × Sys :=
  let sp := should_protect stats s.mgr
  if sp && !s.mgr.system_protected then
    let r := stop_all_cameras env s
    (true, { r.2 with mgr := { r.2.mgr with
      system_protected := true,
      switch_message := "시스템 보호를 위해 스트림 중지" } })
  else if !sp && s.mgr.system_protected then
    (false, { s with mgr := { s.mgr with system_protected := false } })
  else
    (s.mgr.system_protected, s)

/-- Instrumented copy of `check_system_protection` whose first component
additionally records whether the tick invoked `stop_all_cameras` (true
exactly when control reaches the `await self.stop_all_cameras()` call).
`check_system_protection_ev_faithful` below proves it agrees with the
uninstrumented translation. -/
def check_system_protection_ev (stats : SystemStatus) (env : StopEnv) (s : Sys) :
    (Bool × Bool) × Sys :=
  let sp := should_protect stats s.mgr
  if sp && !s.mgr.system_protected then
    let r := stop_all_cameras env s
    ((true, true), { r.2 with mgr := { r.2.mgr with
      system_protected := true,
      switch_message := "시스템 보호를 위해 스트림 중지" } })
  else if !sp && s.mgr.system_protected then
    ((false, false), { s with mgr := { s.mgr with system_protected := false } })
  else
    ((s.mgr.system_protected, false), s)

/-- Environment for `SystemMonitor.get_system_status`: whether each
sub-read raises, the value it returns when it does not, the uptime reading
and the wall clock. -/
structure SysEnv where
  tempFails : Bool
  tempVal : Rat
  cpuFails : Bool
  cpuVal : Rat
  memFails : Bool
  memVal : Rat
  diskFails : Bool
  diskVal : Rat
  uptimeFails : Bool
  uptimeSeconds : Nat
  now : Nat
deriving DecidableEq, Repr

/-- Uptime formatting of `get_system_status`
(`f-string` with hours and minutes). -/
def uptime_str (uptimeSeconds : Nat) : String :=
  toString (uptimeSeconds / 3600) ++ "h " ++ toString ((uptimeSeconds % 3600) / 60) ++ "m"

/-- Three-tier health classification of `get_system_status`. -/
def classify_system_state (cpu temp mem : Rat) : SystemState :=
  if 75 < cpu || 70 < temp || 80 < mem then SystemState.CRITICAL
  else if 60 < cpu || 60 < temp || 70 < mem then SystemState.WARNING
  else SystemState.NORMAL

/-- The all-sentinel snapshot returned by the outer `except` handler of
`get_system_status`. -/
def sentinel_status (now : Nat) : SystemStatus :=
  { cpu_percent := 0, cpu_temp := 0, memory_percent := 0, disk_percent := 0,
    uptime := "unknown", state := SystemState.CRITICAL, timestamp := now }

/-- `SystemMonitor.get_system_status`.  The temperature probe has its own
inner `try` that substitutes `0.0`; the CPU, memory, disk and uptime reads
sit directly in the outer `try`, so a failure of any of them reaches the
outer `except` and the whole snapshot is replaced by the sentinel. -/
def get_system_status (env : SysEnv) : SystemStatus :=
  let cpu_temp : Rat := if env.tempFails then 0 else env.tempVal
  if env.cpuFails then sentinel_status env.now
  else if env.memFails then sentinel_status env.now
  else if env.diskFails then sentinel_status env.now
  else if env.uptimeFails then sentinel_status env.now
  else
    { cpu_percent := env.cpuVal,
      cpu_temp := cpu_temp,
      memory_percent := env.memVal,
      disk_percent := env.diskVal,
      uptime := uptime_str env.uptimeSeconds,
      state := classify_system_state env.cpuVal cpu_temp env.memVal,
      timestamp := env.now }

/-- Result of `ConnectionManager.connect`: either the websocket is accepted
(the method returns `True`) or it is closed with a code and reason and the
method returns `False`. -/
inductive ConnectResult
  | accepted
  | closed (code : Nat) (reason : String)
deriving DecidableEq, Repr

/-- `ConnectionManager`: the list of registered websockets (identified by
abstract ids). -/
structure ConnectionManager where
  active_connections : List Nat
deriving DecidableEq, Repr

/-- `ConnectionManager.connect`: reject (close code 1008) once the active
list has reached `MAX_CONNECTIONS`, otherwise accept, append, and mirror
the count into `toggle_manager.active_connections`. -/
def ConnectionManager.connect (cm : ConnectionManager) (ws : Nat)
    (mgr : ManagerState) : ConnectResult × ConnectionManager × ManagerState :=
  if MAX_CONNECTIONS ≤ cm.active_connections.length then
    (ConnectResult.closed 1008 "Maximum connections exceeded", cm, mgr)
  else
    let cm1 : ConnectionManager :=
      { cm with active_connections := cm.active_connections ++ [ws] }
    (ConnectResult.accepted, cm1,
      { mgr with active_connections := cm1.active_connections.length })

/-- `ConnectionManager.disconnect`: remove the websocket when present and
mirror the count. -/
def ConnectionManager.disconnect (cm : ConnectionManager) (ws : Nat)
    (mgr : ManagerState) : ConnectionManager × ManagerState :=
  if ws ∈ cm.active_connections then
    let cm1 : ConnectionManager :=
      { cm with active_connections := cm.active_connections.erase ws }
    (cm1, { mgr with active_connections := cm1.active_connections.length })
  else (cm, mgr)

/-- `SmartToggleManager.__init__` field values. -/
def initManager : ManagerState :=
  { active_camera := none,
    camera_state := CameraState.STOPPED,
    processes := none,
    switch_progress := 0,
    switch_message := "대기 중",
    last_switch_time := none,
    system_protected := false,
    active_connections := 0 }

/-- Fresh system: the manager just constructed, no OS process running. -/
def initSys : Sys := { mgr := initManager, running := [] }

/-- One externally triggered operation of the server: a switch request, a
stop request, one protection-monitor tick, or a websocket
connect/disconnect.  Environments ride along with the event. -/
inductive Event
  | switchEv (target : Nat) (config : CameraConfig) (stopEnv : StopEnv)
      (startEnv : StartEnv) (now : Nat)
  | stopEv (stopEnv : StopEnv)
  | protectEv (stats : SystemStatus) (stopEnv : StopEnv)
  | connectEv (ws : Nat)
  | disconnectEv (ws : Nat)
deriving Repr

/-- Whole-server state: the connection manager plus the toggle manager and
the running OS processes. -/
structure Server where
  conn : ConnectionManager
  sys : Sys
deriving DecidableEq, Repr

/-- Server state at module load. -/
def initServer : Server := { conn := { active_connections := [] }, sys := initSys }

/-- One step of the whole server. -/
def Server.step (w : Server) (e : Event) : Server :=
  match e with
  | Event.switchEv target config stopEnv startEnv now =>
    { w with sys := (smart_switch_camera target config stopEnv startEnv now w.sys).2 }
  | Event.stopEv stopEnv =>
    { w with sys := (stop_all_cameras stopEnv w.sys).2 }
  | Event.protectEv stats stopEnv =>
    { w with sys := (check_system_protection stats stopEnv w.sys).2 }
  | Event.connectEv ws =>
    let r := w.conn.connect ws w.sys.mgr
    { conn := r.2.1, sys := { w.sys with mgr := r.2.2 } }
  | Event.disconnectEv ws =>
    let r := w.conn.disconnect ws w.sys.mgr
    { conn := r.1, sys := { w.sys with mgr := r.2 } }

/-- Run the server over a list of events. -/
def Server.run (w : Server) (es : List Event) : Server :=
  es.foldl Server.step w

/-- A teardown environment raises no exception: both graduated termination
steps of `_safe_stop_current_camera` complete (by SIGTERM or by
escalation), so the `except` branch is not taken. -/
def StopEnv.NoRaise (e : StopEnv) : Prop :=
  e.ffmpegStop ≠ TermOutcome.raisesExc ∧ e.rpicamStop ≠ TermOutcome.raisesExc

/-- The outcome of `_safe_start_camera` as determined by its environment:
both spawns succeed, neither process dies during the settle check, and the
manifest appears. -/
def startSucceeds (e : StartEnv) : Bool :=
  e.rpicamSpawnOk && e.ffmpegSpawnOk && !e.rpicamEarlyExit &&
    !e.ffmpegEarlyExit && e.manifestOk

/-- The teardown environments carried by an event raise no exception. -/
def Event.StopNoRaise : Event → Prop
  | Event.switchEv _ _ stopEnv _ _ => stopEnv.NoRaise
  | Event.stopEv stopEnv => stopEnv.NoRaise
  | Event.protectEv _ stopEnv => stopEnv.NoRaise
  | Event.connectEv _ => True
  | Event.disconnectEv _ => True

/-- The handle-pair/state relation observed at operation boundaries: the
manager holds a process-handle pair exactly when the toggle state is
`RUNNING`. -/
def PairInv (s : Sys) : Prop :=
  s.mgr.processes.isSome ↔ s.mgr.camera_state = CameraState.RUNNING

/-- Connection-count bookkeeping invariant: the manager's mirrored count
equals the registered-websocket count, which never exceeds the cap. -/
def ConnInv (w : Server) : Prop :=
  w.sys.mgr.active_connections = w.conn.active_connections.length ∧
    w.conn.active_connections.length ≤ MAX_CONNECTIONS

/-- Iterated protection-monitor ticks (`background_monitor` loop body,
restricted to the `check_system_protection` call), instrumented. -/
def protectTicks (s : Sys) : List (SystemStatus × StopEnv) → Sys
  | [] => s
  | t :: ts => protectTicks (check_system_protection_ev t.1 t.2 s).2 ts

/-- The stored protection flag right before tick `i` of a run. -/
def flagBefore (s : Sys) (ts : List (SystemStatus × StopEnv)) (i : Nat) : Bool :=
  (protectTicks s (ts.take i)).mgr.system_protected

/-- Whether tick `i` of a run invoked `stop_all_cameras` (false past the
end of the run). -/
def tickInvoked (s : Sys) (ts : List (SystemStatus × StopEnv)) (i : Nat) : Bool :=
  match ts.drop i with
  | [] => false
  | t :: _ => (check_system_protection_ev t.1 t.2 (protectTicks s (ts.take i))).1.2

/-- Concrete configuration used by the witness scenarios. -/
def cfg0 : CameraConfig := { camera_id := 0 }

/-- Teardown environment where both processes exit on SIGTERM. -/
def okStop : StopEnv :=
  { ffmpegStop := TermOutcome.exits, rpicamStop := TermOutcome.exits }

/-- Teardown environment where both termination steps raise. -/
def raiseStop : StopEnv :=
  { ffmpegStop := TermOutcome.raisesExc, rpicamStop := TermOutcome.raisesExc }

/-- Startup environment where everything works: pids 100/101, no early
death, manifest appears. -/
def okStart : StartEnv :=
  { rpicamSpawnOk := true, rpicamPid := 100,
    ffmpegSpawnOk := true, ffmpegPid := 101,
    rpicamEarlyExit := false, ffmpegEarlyExit := false,
    manifestOk := true,
    cleanupRpicamRaises := false, cleanupFfmpegRaises := false }

/-- Startup environment where the HLS manifest never appears within the
8-second bound. -/
def noManifestStart : StartEnv := { okStart with manifestOk := false }

/-- Startup environment where the `ffmpeg` `Popen` raises after
`rpicam-vid` was already spawned. -/
def ffSpawnFailStart : StartEnv := { okStart with ffmpegSpawnOk := false }

/-- System state after a successful switch to camera 0 from a fresh start:
camera 0 `RUNNING` with the handle pair 100/101 held. -/
def runningSys0 : Sys := (smart_switch_camera 0 cfg0 okStop okStart 5 initSys).2

/-- A host-metrics snapshot with CPU at 85 percent (above the protection
threshold of 80) and everything else nominal. -/
def stats85 : SystemStatus :=
  { cpu_percent := 85, cpu_temp := 45, memory_percent := 30, disk_percent := 20,
    uptime := "1h 0m", state := SystemState.CRITICAL, timestamp := 0 }

/-- A connection manager already holding `MAX_CONNECTIONS` observers. -/
def cm12 : ConnectionManager :=
  { active_connections := [1, 2, 3, 4, 5, 6, 7, 8, 9, 10, 11, 12] }

/-- Monitor environment where only the uptime read fails while every other
probe returns a healthy value. -/
def uptimeFailEnv : SysEnv :=
  { tempFails := false, tempVal := 50,
    cpuFails := false, cpuVal := 50,
    memFails := false, memVal := 10,
    diskFails := false, diskVal := 10,
    uptimeFails := true, uptimeSeconds := 3600, now := 7 }

/-- Monitor environment where only the temperature probe fails. -/
def tempFailEnv : SysEnv :=
  { tempFails := true, tempVal := 50,
    cpuFails := false, cpuVal := 50,
    memFails := false, memVal := 10,
    diskFails := false, diskVal := 10,
    uptimeFails := false, uptimeSeconds := 3600, now := 7 }

/-- The realizable teardown environment: the first executed termination
step raises the deterministic `TypeError` from
`asyncio.wait_for(Popen.wait(), timeout)`.  (The `rpicam` step is then
never reached, so its outcome is unconstrained.) -/
def StopEnv.Real (e : StopEnv) : Prop :=
  e.ffmpegStop = TermOutcome.raisesExc

/-- Every teardown environment carried by an event is the realizable one:
the trace describes an execution the source can actually take. -/
def Event.RealStop : Event → Prop
  | Event.switchEv _ _ stopEnv _ _ => stopEnv.Real
  | Event.stopEv stopEnv => stopEnv.Real
  | Event.protectEv _ stopEnv => stopEnv.Real
  | Event.connectEv _ => True
  | Event.disconnectEv _ => True

/-- Invariant of real executions: whenever a camera is recorded active, the
process-handle pair is held.  (The only writers of `active_camera` are the
switch success branch, which has just stored the pair, and
`stop_all_cameras`, which clears it to `None`.) -/
def ActivePairInv (s : Sys) : Prop :=
  s.mgr.active_camera.isSome = true → s.mgr.processes.isSome = true

/-- Instrumented copy of `smart_switch_camera` whose first component
additionally records whether the startup phase was reached (true exactly
when control reaches the `_safe_start_camera` call — i.e. no prior camera
was active, or the teardown reported success).
`smart_switch_ev_faithful` below proves it agrees with the uninstrumented
translation. -/
def smart_switch_camera_ev (target_camera : Nat) (config : CameraConfig)
    (stopEnv : StopEnv) (startEnv : StartEnv) (now : Nat) (s : Sys) :
    (Bool × Bool) × Sys :=
  let s0 := { s with mgr := { s.mgr with
    camera_state := CameraState.SWITCHING,
    switch_progress := 0,
    switch_message := "카메라 " ++ toString target_camera ++ "로 전환 중..." } }
  match s0.mgr.active_camera with
  | some _ =>
    let s1 := { s0 with mgr := { s0.mgr with switch_message := "기존 카메라 정리 중..." } }
    let r := safe_stop_current_camera stopEnv s1
    if r.1 = false then
      ((false, false), { r.2 with mgr := { r.2.mgr with
        camera_state := CameraState.ERROR,
        switch_message := "기존 카메라 정지 실패" } })
    else
      let s3 := { r.2 with mgr := { r.2.mgr with switch_progress := 40 } }
      let p := smart_switch_start_phase target_camera config startEnv now s3
      ((p.1, true), p.2)
  | none =>
    let p := smart_switch_start_phase target_camera config startEnv now s0
    ((p.1, true), p.2)

lemma not_mem_removePid (pid : Nat) (w : List Nat) : pid ∉ removePid pid w := by
  simp [removePid, List.mem_filter]

lemma mem_of_mem_removePid {x pid : Nat} {w : List Nat}
    (h : x ∈ removePid pid w) : x ∈ w := by
  simpa [removePid] using (List.mem_filter.mp h).1

lemma not_mem_cleanup_step_self (pid : Nat) (w : List Nat) :
    pid ∉ cleanup_process_step pid false w := by
  by_cases hm : pid ∈ w <;>
    simp [cleanup_process_step, hm, removePid, List.mem_filter]

lemma not_mem_cleanup_step {x pid : Nat} {r : Bool} {w : List Nat}
    (h : x ∉ w) : x ∉ cleanup_process_step pid r w := by
  unfold cleanup_process_step
  split_ifs <;> first
    | exact h
    | exact fun hx => h (mem_of_mem_removePid hx)

lemma safe_stop_fields (e : StopEnv) (s : Sys) :
    (safe_stop_current_camera e s).2.mgr.active_camera = s.mgr.active_camera ∧
    (safe_stop_current_camera e s).2.mgr.system_protected = s.mgr.system_protected ∧
    (safe_stop_current_camera e s).2.mgr.active_connections = s.mgr.active_connections ∧
    (safe_stop_current_camera e s).2.mgr.last_switch_time = s.mgr.last_switch_time ∧
    (safe_stop_current_camera e s).2.mgr.switch_progress = s.mgr.switch_progress ∧
    (safe_stop_current_camera e s).2.mgr.switch_message = s.mgr.switch_message := by
  obtain ⟨ef, er⟩ := e
  cases ef <;> cases er <;> cases hp : s.mgr.processes <;>
    simp [safe_stop_current_camera, hp]

lemma safe_stop_processes (e : StopEnv) (s : Sys) :
    (safe_stop_current_camera e s).2.mgr.processes =
      (if (safe_stop_current_camera e s).1 then none else s.mgr.processes) := by
  obtain ⟨ef, er⟩ := e
  cases ef <;> cases er <;> cases hp : s.mgr.processes <;>
    simp [safe_stop_current_camera, hp]

lemma safe_stop_false_iff (e : StopEnv) (s : Sys) :
    (safe_stop_current_camera e s).1 = false ↔
      s.mgr.processes.isSome = true ∧
        (e.ffmpegStop = TermOutcome.raisesExc ∨ e.rpicamStop = TermOutcome.raisesExc) := by
  obtain ⟨ef, er⟩ := e
  cases ef <;> cases er <;> cases hp : s.mgr.processes <;>
    simp [safe_stop_current_camera, hp]

lemma safe_stop_of_noRaise {e : StopEnv} (h : e.NoRaise) (s : Sys) :
    (safe_stop_current_camera e s).1 = true := by
  cases hr : (safe_stop_current_camera e s).1
  · rcases (safe_stop_false_iff e s).mp hr with ⟨-, hc | hc⟩
    · exact absurd hc h.1
    · exact absurd hc h.2
  · rfl

lemma cleanup_mgr (env : StartEnv) (s : Sys) :
    (cleanup_failed_start env s).mgr = { s.mgr with processes := none } := rfl

lemma safe_start_spec (camera_id : Nat) (config : CameraConfig) (e : StartEnv) (s : Sys) :
    (safe_start_camera camera_id config e s).1 = startSucceeds e ∧
    (safe_start_camera camera_id config e s).2.mgr.processes =
      (if startSucceeds e then
        some { rpicam := e.rpicamPid, ffmpeg := e.ffmpegPid } else none) ∧
    (safe_start_camera camera_id config e s).2.mgr.active_camera = s.mgr.active_camera ∧
    (safe_start_camera camera_id config e s).2.mgr.system_protected = s.mgr.system_protected ∧
    (safe_start_camera camera_id config e s).2.mgr.active_connections = s.mgr.active_connections ∧
    (safe_start_camera camera_id config e s).2.mgr.last_switch_time = s.mgr.last_switch_time := by
  obtain ⟨a1, p1, a2, p2, x1, x2, mf, c1, c2⟩ := e
  cases a1 <;> cases a2 <;> cases x1 <;> cases x2 <;> cases mf <;>
    simp [safe_start_camera, cleanup_failed_start, startSucceeds]

lemma start_phase_spec (target : Nat) (config : CameraConfig) (e : StartEnv)
    (now : Nat) (s : Sys) :
    (smart_switch_start_phase target config e now s).1 = startSucceeds e ∧
    (smart_switch_start_phase target config e now s).2.mgr.camera_state =
      (if startSucceeds e then CameraState.RUNNING else CameraState.ERROR) ∧
    (smart_switch_start_phase target config e now s).2.mgr.processes =
      (if startSucceeds e then
        some { rpicam := e.rpicamPid, ffmpeg := e.ffmpegPid } else none) ∧
    (smart_switch_start_phase target config e now s).2.mgr.active_camera =
      (if startSucceeds e then some target else s.mgr.active_camera) ∧
    (smart_switch_start_phase target config e now s).2.mgr.system_protected =
      s.mgr.system_protected ∧
    (smart_switch_start_phase target config e now s).2.mgr.active_connections =
      s.mgr.active_connections := by
  obtain ⟨a1, p1, a2, p2, x1, x2, mf, c1, c2⟩ := e
  cases a1 <;> cases a2 <;> cases x1 <;> cases x2 <;> cases mf <;>
    simp [smart_switch_start_phase, safe_start_camera, cleanup_failed_start,
      startSucceeds]

lemma smart_switch_spec (target : Nat) (config : CameraConfig) {se : StopEnv}
    (ste : StartEnv) (now : Nat) (s : Sys) (h : se.NoRaise) :
    (smart_switch_camera target config se ste now s).1 = startSucceeds ste ∧
    (smart_switch_camera target config se ste now s).2.mgr.camera_state =
      (if startSucceeds ste then CameraState.RUNNING else CameraState.ERROR) ∧
    (smart_switch_camera target config se ste now s).2.mgr.processes =
      (if startSucceeds ste then
        some { rpicam := ste.rpicamPid, ffmpeg := ste.ffmpegPid } else none) ∧
    (smart_switch_camera target config se ste now s).2.mgr.active_camera =
      (if startSucceeds ste then some target else s.mgr.active_camera) ∧
    (smart_switch_camera target config se ste now s).2.mgr.system_protected =
      s.mgr.system_protected ∧
    (smart_switch_camera target config se ste now s).2.mgr.active_connections =
      s.mgr.active_connections := by
  unfold smart_switch_camera
  cases hac : s.mgr.active_camera with
  | none =>
    simpa [hac] using start_phase_spec target config ste now _
  | some a =>
    have hstop := safe_stop_of_noRaise h
      { s with mgr := { s.mgr with
          camera_state := CameraState.SWITCHING,
          switch_progress := 0,
          switch_message := "기존 카메라 정리 중..." } }
    have hf := safe_stop_fields se
      { s with mgr := { s.mgr with
          camera_state := CameraState.SWITCHING,
          switch_progress := 0,
          switch_message := "기존 카메라 정리 중..." } }
    have hph := start_phase_spec target config ste now
      { (safe_stop_current_camera se
          { s with mgr := { s.mgr with
              camera_state := CameraState.SWITCHING,
              switch_progress := 0,
              switch_message := "기존 카메라 정리 중..." } }).2 with
        mgr := { (safe_stop_current_camera se
          { s with mgr := { s.mgr with
              camera_state := CameraState.SWITCHING,
              switch_progress := 0,
              switch_message := "기존 카메라 정리 중..." } }).2.mgr with
          switch_progress := 40 } }
    simp only [hac, hstop]
    rcases hph with ⟨q1, q2, q3, q4, q5, q6⟩
    rcases hf with ⟨f1, f2, f3, -⟩
    refine ⟨?_, ?_, ?_, ?_, ?_, ?_⟩ <;>
      simp_all

lemma stop_all_spec (e : StopEnv) (s : Sys) :
    (stop_all_cameras e s).1 = (safe_stop_current_camera e s).1 ∧
    (stop_all_cameras e s).2.mgr.camera_state = CameraState.STOPPED ∧
    (stop_all_cameras e s).2.mgr.active_camera = none ∧
    (stop_all_cameras e s).2.mgr.processes =
      (safe_stop_current_camera e s).2.mgr.processes ∧
    (stop_all_cameras e s).2.mgr.system_protected = s.mgr.system_protected ∧
    (stop_all_cameras e s).2.mgr.active_connections = s.mgr.active_connections := by
  have hf := safe_stop_fields e s
  exact ⟨rfl, rfl, rfl, rfl, hf.2.1, hf.2.2.1⟩

lemma smart_switch_conns (target : Nat) (config : CameraConfig) (se : StopEnv)
    (ste : StartEnv) (now : Nat) (s : Sys) :
    (smart_switch_camera target config se ste now s).2.mgr.active_connections =
      s.mgr.active_connections := by
  unfold smart_switch_camera
  dsimp only
  split
  · split
    · exact (safe_stop_fields se _).2.2.1
    · rw [(start_phase_spec target config ste now _).2.2.2.2.2]
      exact (safe_stop_fields se _).2.2.1
  · exact (start_phase_spec target config ste now _).2.2.2.2.2

lemma check_conns (stats : SystemStatus) (e : StopEnv) (s : Sys) :
    (check_system_protection stats e s).2.mgr.active_connections =
      s.mgr.active_connections := by
  unfold check_system_protection
  dsimp only
  split_ifs
  · exact (stop_all_spec e s).2.2.2.2.2
  · rfl
  · rfl

lemma check_ev_faithful (stats : SystemStatus) (e : StopEnv) (s : Sys) :
    (check_system_protection_ev stats e s).1.1 =
      (check_system_protection stats e s).1 ∧
    (check_system_protection_ev stats e s).2 =
      (check_system_protection stats e s).2 := by
  unfold check_system_protection_ev check_system_protection
  dsimp only
  split_ifs <;> exact ⟨rfl, rfl⟩

lemma check_ev_conns (stats : SystemStatus) (e : StopEnv) (s : Sys) :
    (check_system_protection_ev stats e s).2.mgr.active_connections =
      s.mgr.active_connections := by
  rw [(check_ev_faithful stats e s).2]
  exact check_conns stats e s

lemma check_ev_invoked (stats : SystemStatus) (e : StopEnv) (s : Sys) :
    (check_system_protection_ev stats e s).1.2 =
      (should_protect stats s.mgr && !s.mgr.system_protected) := by
  unfold check_system_protection_ev
  dsimp only
  split_ifs with h1 h2 <;> simp_all

lemma check_ev_flag (stats : SystemStatus) (e : StopEnv) (s : Sys) :
    (check_system_protection_ev stats e s).2.mgr.system_protected =
      (if should_protect stats s.mgr && !s.mgr.system_protected then true
       else if !(should_protect stats s.mgr) && s.mgr.system_protected then false
       else s.mgr.system_protected) := by
  unfold check_system_protection_ev
  dsimp only
  split_ifs with h1 h2 <;> simp_all

lemma should_protect_congr (stats : SystemStatus) {m1 m2 : ManagerState}
    (h : m1.active_connections = m2.active_connections) :
    should_protect stats m1 = should_protect stats m2 := by
  simp [should_protect, conn_condition, h]

lemma protectTicks_conns (ts : List (SystemStatus × StopEnv)) :
    ∀ s : Sys, (protectTicks s ts).mgr.active_connections =
      s.mgr.active_connections := by
  induction ts with
  | nil => intro s; rfl
  | cons t rest ih =>
    intro s
    rw [show protectTicks s (t :: rest) =
        protectTicks (check_system_protection_ev t.1 t.2 s).2 rest from rfl,
      ih, check_ev_conns]

lemma stop_all_pairInv {e : StopEnv} (h : e.NoRaise) (s : Sys) :
    PairInv (stop_all_cameras e s).2 := by
  have hsp := stop_all_spec e s
  unfold PairInv
  rw [hsp.2.2.2.1, hsp.2.1, safe_stop_processes, safe_stop_of_noRaise h]
  simp

lemma smart_switch_pairInv (target : Nat) (config : CameraConfig) {se : StopEnv}
    (ste : StartEnv) (now : Nat) (s : Sys) (h : se.NoRaise) :
    PairInv (smart_switch_camera target config se ste now s).2 := by
  obtain ⟨-, h2, h3, -, -, -⟩ := smart_switch_spec target config ste now s h
  unfold PairInv
  rw [h2, h3]
  cases startSucceeds ste <;> simp

lemma check_pairInv {e : StopEnv} (stats : SystemStatus) (h : e.NoRaise)
    {s : Sys} (hs : PairInv s) :
    PairInv (check_system_protection stats e s).2 := by
  have hsp := stop_all_spec e s
  unfold check_system_protection
  dsimp only
  split_ifs
  · unfold PairInv
    show ((stop_all_cameras e s).2.mgr.processes.isSome ↔
      (stop_all_cameras e s).2.mgr.camera_state = CameraState.RUNNING)
    rw [hsp.2.2.2.1, hsp.2.1, safe_stop_processes, safe_stop_of_noRaise h]
    simp
  · exact hs
  · exact hs

lemma step_pairInv (w : Server) (e : Event) (he : e.StopNoRaise)
    (hw : PairInv w.sys) : PairInv (w.step e).sys := by
  cases e with
  | switchEv target config se ste now =>
    exact smart_switch_pairInv target config ste now w.sys he
  | stopEv se => exact stop_all_pairInv he w.sys
  | protectEv stats se => exact check_pairInv stats he hw
  | connectEv ws =>
    unfold Server.step ConnectionManager.connect
    dsimp only
    split_ifs <;> exact hw
  | disconnectEv ws =>
    unfold Server.step ConnectionManager.disconnect
    dsimp only
    split_ifs <;> exact hw

lemma run_pairInv (es : List Event) :
    ∀ w : Server, PairInv w.sys → (∀ e ∈ es, e.StopNoRaise) →
      PairInv (Server.run w es).sys := by
  induction es with
  | nil => exact fun w hw _ => hw
  | cons e rest ih =>
    intro w hw hall
    exact ih (w.step e)
      (step_pairInv w e (hall e (List.mem_cons_self e rest)) hw)
      (fun x hx => hall x (List.mem_cons_of_mem e hx))

lemma step_connInv (w : Server) (e : Event) (hw : ConnInv w) :
    ConnInv (w.step e) := by
  cases e with
  | switchEv target config se ste now =>
    refine ⟨?_, hw.2⟩
    show (smart_switch_camera target config se ste now w.sys).2.mgr.active_connections =
      w.conn.active_connections.length
    rw [smart_switch_conns]
    exact hw.1
  | stopEv se =>
    refine ⟨?_, hw.2⟩
    show (stop_all_cameras se w.sys).2.mgr.active_connections =
      w.conn.active_connections.length
    rw [(stop_all_spec se w.sys).2.2.2.2.2]
    exact hw.1
  | protectEv stats se =>
    refine ⟨?_, hw.2⟩
    show (check_system_protection stats se w.sys).2.mgr.active_connections =
      w.conn.active_connections.length
    rw [check_conns]
    exact hw.1
  | connectEv ws =>
    unfold Server.step ConnectionManager.connect
    dsimp only
    split_ifs with hcap
    · exact hw
    · refine ⟨rfl, ?_⟩
      have : w.conn.active_connections.length < MAX_CONNECTIONS := by
        omega
      simpa [List.length_append] using this
  | disconnectEv ws =>
    unfold Server.step ConnectionManager.disconnect
    dsimp only
    split_ifs with hm
    · refine ⟨rfl, ?_⟩
      exact le_trans
        (List.Sublist.length_le (List.erase_sublist ws w.conn.active_connections))
        hw.2
    · exact hw

lemma run_connInv (es : List Event) :
    ∀ w : Server, ConnInv w → ConnInv (Server.run w es) := by
  induction es with
  | nil => exact fun w hw => hw
  | cons e rest ih => exact fun w hw => ih (w.step e) (step_connInv w e hw)

lemma cleanup_removes (p1 p2 : Nat) (e : StartEnv) (s : Sys)
    (hc1 : e.cleanupRpicamRaises = false) (hc2 : e.cleanupFfmpegRaises = false)
    (hp : s.mgr.processes = some { rpicam := p1, ffmpeg := p2 }) :
    p1 ∉ (cleanup_failed_start e s).running ∧
    p2 ∉ (cleanup_failed_start e s).running := by
  unfold cleanup_failed_start
  rw [hp, hc1, hc2]
  dsimp only
  exact ⟨not_mem_cleanup_step (not_mem_cleanup_step_self p1 s.running),
    not_mem_cleanup_step_self p2 _⟩

lemma safe_stop_real_fails {se : StopEnv} (hse : se.Real) {s : Sys}
    (hp : s.mgr.processes.isSome = true) :
    (safe_stop_current_camera se s).1 = false :=
  (safe_stop_false_iff se s).mpr ⟨hp, Or.inl hse⟩

lemma smart_switch_ev_faithful (target : Nat) (config : CameraConfig)
    (se : StopEnv) (ste : StartEnv) (now : Nat) (s : Sys) :
    (smart_switch_camera_ev target config se ste now s).1.1 =
      (smart_switch_camera target config se ste now s).1 ∧
    (smart_switch_camera_ev target config se ste now s).2 =
      (smart_switch_camera target config se ste now s).2 := by
  unfold smart_switch_camera_ev smart_switch_camera
  dsimp only
  split
  · split <;> exact ⟨rfl, rfl⟩
  · exact ⟨rfl, rfl⟩

lemma smart_switch_ev_not_run (target : Nat) (config : CameraConfig)
    {se : StopEnv} (ste : StartEnv) (now : Nat) {s : Sys} (hse : se.Real)
    (hps : s.mgr.processes.isSome = true) {v : Nat}
    (hac : s.mgr.active_camera = some v) :
    (smart_switch_camera_ev target config se ste now s).1.2 = false := by
  unfold smart_switch_camera_ev
  dsimp only
  split
  · split
    · rfl
    · next hcond => exact (hcond (safe_stop_real_fails hse hps)).elim
  · next heq =>
    have heq2 : s.mgr.active_camera = none := heq
    rw [hac] at heq2
    exact Option.noConfusion heq2

lemma smart_switch_none_case (target : Nat) (config : CameraConfig)
    (se : StopEnv) (ste : StartEnv) (now : Nat) {s : Sys}
    (hac : s.mgr.active_camera = none) :
    smart_switch_camera target config se ste now s =
      smart_switch_start_phase target config ste now
        { s with mgr := { s.mgr with
            camera_state := CameraState.SWITCHING,
            switch_progress := 0,
            switch_message := "카메라 " ++ toString target ++ "로 전환 중..." } } := by
  unfold smart_switch_camera
  dsimp only
  split
  · next w heq =>
    have heq2 : s.mgr.active_camera = some w := heq
    rw [hac] at heq2
    exact Option.noConfusion heq2
  · rfl

lemma stop_all_activePair (e : StopEnv) (s : Sys) :
    ActivePairInv (stop_all_cameras e s).2 := by
  intro h
  have h2 : (stop_all_cameras e s).2.mgr.active_camera.isSome = true := h
  rw [(stop_all_spec e s).2.2.1] at h2
  simp at h2

lemma check_activePair (stats : SystemStatus) (e : StopEnv) {s : Sys}
    (hs : ActivePairInv s) :
    ActivePairInv (check_system_protection stats e s).2 := by
  unfold check_system_protection
  dsimp only
  split_ifs
  · intro h
    have h2 : (stop_all_cameras e s).2.mgr.active_camera.isSome = true := h
    rw [(stop_all_spec e s).2.2.1] at h2
    simp at h2
  · exact hs
  · exact hs

lemma smart_switch_activePair (target : Nat) (config : CameraConfig)
    {se : StopEnv} (ste : StartEnv) (now : Nat) {s : Sys} (hse : se.Real)
    (hs : ActivePairInv s) :
    ActivePairInv (smart_switch_camera target config se ste now s).2 := by
  cases hac : s.mgr.active_camera with
  | none =>
    rw [smart_switch_none_case target config se ste now hac]
    obtain ⟨-, -, hproc, hactive, -, -⟩ := start_phase_spec target config ste now
      { s with mgr := { s.mgr with
          camera_state := CameraState.SWITCHING,
          switch_progress := 0,
          switch_message := "카메라 " ++ toString target ++ "로 전환 중..." } }
    intro h
    cases hb : startSucceeds ste
    · rw [hactive, hb] at h
      simp [hac] at h
    · rw [hproc, hb]
      simp
  | some v =>
    have hps : s.mgr.processes.isSome = true := hs (by rw [hac]; rfl)
    unfold smart_switch_camera
    dsimp only
    split
    · next w heq =>
      split
      · next hcond =>
        intro h0
        have h2 := safe_stop_processes se
          { s with mgr := { s.mgr with
              camera_state := CameraState.SWITCHING,
              switch_progress := 0,
              switch_message := "기존 카메라 정리 중..." } }
        rw [hcond] at h2
        simp at h2
        show (safe_stop_current_camera se
          { s with mgr := { s.mgr with
              camera_state := CameraState.SWITCHING,
              switch_progress := 0,
              switch_message := "기존 카메라 정리 중..." } }).2.mgr.processes.isSome = true
        rw [h2]
        exact hps
      · next hcond =>
        exact (hcond (safe_stop_real_fails hse hps)).elim
    · next heq =>
      have heq2 : s.mgr.active_camera = none := heq
      rw [hac] at heq2
      exact Option.noConfusion heq2

lemma step_activePair (w : Server) (e : Event) (he : e.RealStop)
    (hw : ActivePairInv w.sys) : ActivePairInv ((w.step e)).sys := by
  cases e with
  | switchEv target config se ste now =>
    exact smart_switch_activePair target config ste now he hw
  | stopEv se => exact stop_all_activePair se w.sys
  | protectEv stats se => exact check_activePair stats se hw
  | connectEv ws =>
    unfold Server.step ConnectionManager.connect
    dsimp only
    split_ifs <;> exact hw
  | disconnectEv ws =>
    unfold Server.step ConnectionManager.disconnect
    dsimp only
    split_ifs <;> exact hw

lemma run_activePair (es : List Event) :
    ∀ w : Server, ActivePairInv w.sys → (∀ e ∈ es, e.RealStop) →
      ActivePairInv (Server.run w es).sys := by
  induction es with
  | nil => exact fun w hw _ => hw
  | cons e rest ih =>
    intro w hw hall
    exact ih (w.step e)
      (step_activePair w e (hall e (List.mem_cons_self e rest)) hw)
      (fun x hx => hall x (List.mem_cons_of_mem e hx))

/-- C1: in every state the source can actually reach (traces whose teardown
environments are the realizable one — the executed termination step raises
the deterministic `TypeError`), a `smart_switch_camera` call whose startup
phase runs and whose start helper returns failure itself returns failure,
and the resulting status snapshot has state `ERROR` and
`active_camera = none` — neither the previous source nor the target.  (A
held pair makes the realizable teardown fail before the start phase, so the
start helper only ever runs with no active source recorded.) -/
theorem C1_start_failure_error_no_active (es : List Event)
    (hreal : ∀ e ∈ es, e.RealStop) (target : Nat) (config : CameraConfig)
    (se : StopEnv) (ste : StartEnv) (now : Nat) (hse : se.Real)
    (hrun : (smart_switch_camera_ev target config se ste now
      (Server.run initServer es).sys).1.2 = true)
    (hfail : (smart_switch_camera_ev target config se ste now
      (Server.run initServer es).sys).1.1 = false) :
    (smart_switch_camera target config se ste now
      (Server.run initServer es).sys).1 = false ∧
    (get_status (smart_switch_camera target config se ste now
      (Server.run initServer es).sys).2.mgr).camera_state = CameraState.ERROR ∧
    (get_status (smart_switch_camera target config se ste now
      (Server.run initServer es).sys).2.mgr).active_camera = none := by
  have hinv : ActivePairInv (Server.run initServer es).sys :=
    run_activePair es initServer (fun h => absurd h (by decide)) hreal
  cases hac : (Server.run initServer es).sys.mgr.active_camera with
  | some v =>
    rw [smart_switch_ev_not_run target config ste now hse
      (hinv (by rw [hac]; rfl)) hac] at hrun
    exact Bool.noConfusion hrun
  | none =>
    have hres : (smart_switch_camera target config se ste now
        (Server.run initServer es).sys).1 = false :=
      (smart_switch_ev_faithful target config se ste now _).1.symm.trans hfail
    rw [smart_switch_none_case target config se ste now hac] at hres ⊢
    obtain ⟨p1, p2, -, p4, -, -⟩ := start_phase_spec target config ste now
      { (Server.run initServer es).sys with
        mgr := { (Server.run initServer es).sys.mgr with
          camera_state := CameraState.SWITCHING,
          switch_progress := 0,
          switch_message := "카메라 " ++ toString target ++ "로 전환 중..." } }
    have hsf : startSucceeds ste = false := by rw [← p1]; exact hres
    refine ⟨hres, ?_, ?_⟩
    · show (smart_switch_start_phase target config ste now
        { (Server.run initServer es).sys with
          mgr := { (Server.run initServer es).sys.mgr with
            camera_state := CameraState.SWITCHING,
            switch_progress := 0,
            switch_message := "카메라 " ++ toString target ++ "로 전환 중..." } }).2.mgr.camera_state =
        CameraState.ERROR
      rw [p2, hsf]
      simp
    · show (smart_switch_start_phase target config ste now
        { (Server.run initServer es).sys with
          mgr := { (Server.run initServer es).sys.mgr with
            camera_state := CameraState.SWITCHING,
            switch_progress := 0,
            switch_message := "카메라 " ++ toString target ++ "로 전환 중..." } }).2.mgr.active_camera =
        none
      rw [p4, hsf]
      simp [hac]

/-- C1 witness: the theorem applied on the fresh server (empty trace) to a
switch whose manifest never appears: the startup phase runs, fails, and the
snapshot ends with `ERROR` and no active camera. -/
theorem C1_witness :
    (∀ e ∈ ([] : List Event), e.RealStop) ∧
    raiseStop.Real ∧
    (smart_switch_camera_ev 1 cfg0 raiseStop noManifestStart 6
      (Server.run initServer []).sys).1.2 = true ∧
    (smart_switch_camera_ev 1 cfg0 raiseStop noManifestStart 6
      (Server.run initServer []).sys).1.1 = false ∧
    ((smart_switch_camera 1 cfg0 raiseStop noManifestStart 6
        (Server.run initServer []).sys).1 = false ∧
     (get_status (smart_switch_camera 1 cfg0 raiseStop noManifestStart 6
        (Server.run initServer []).sys).2.mgr).camera_state = CameraState.ERROR ∧
     (get_status (smart_switch_camera 1 cfg0 raiseStop noManifestStart 6
        (Server.run initServer []).sys).2.mgr).active_camera = none) :=
  ⟨fun e he => absurd he (List.not_mem_nil e), rfl, by decide, by decide,
    C1_start_failure_error_no_active [] (fun e he => absurd he (List.not_mem_nil e))
      1 cfg0 raiseStop noManifestStart 6 rfl (by decide) (by decide)⟩

/-- C2 (amended): `stop_all_cameras` always clears `active_camera` and sets
state `STOPPED` — even when the teardown fails — and the teardown failure
is reported only through the returned result, which is `False` exactly when
a handle pair was held and a termination step raised.  (The original
claim's assertion that the state is left unchanged on failure is refuted by
`C2_counterexample`.) -/
theorem C2_stop_all_always_claims_stopped (e : StopEnv) (s : Sys) :
    (stop_all_cameras e s).2.mgr.camera_state = CameraState.STOPPED ∧
    (stop_all_cameras e s).2.mgr.active_camera = none ∧
    ((stop_all_cameras e s).1 = false ↔
      s.mgr.processes.isSome = true ∧
        (e.ffmpegStop = TermOutcome.raisesExc ∨
          e.rpicamStop = TermOutcome.raisesExc)) := by
  refine ⟨(stop_all_spec e s).2.1, (stop_all_spec e s).2.2.1, ?_⟩
  rw [(stop_all_spec e s).1]
  exact safe_stop_false_iff e s

/-- C2 counterexample: with camera 0 running, a teardown whose termination
steps raise makes `stop_all_cameras` return failure, yet the state is
changed from `RUNNING` to `STOPPED` rather than left unchanged. -/
theorem C2_counterexample :
    runningSys0.mgr.camera_state = CameraState.RUNNING ∧
    (stop_all_cameras raiseStop runningSys0).1 = false ∧
    (stop_all_cameras raiseStop runningSys0).2.mgr.camera_state =
      CameraState.STOPPED := by
  decide

/-- C3 (amended): at operation boundaries, provided no teardown termination
step raises an exception, the manager holds a process-handle pair exactly
when the state is `RUNNING` (at most one pair can ever exist since the
handle dictionary holds a single pair).  The original claim's set
{Starting, Running, Stopping, Switching} is refuted by
`C3_counterexample`: a raising teardown leaves the pair held in state
`STOPPED`. -/
theorem C3_pair_iff_running (es : List Event)
    (h : ∀ e ∈ es, e.StopNoRaise) :
    ((Server.run initServer es).sys.mgr.processes.isSome ↔
      (Server.run initServer es).sys.mgr.camera_state = CameraState.RUNNING) :=
  run_pairInv es initServer (by unfold PairInv; decide) h

/-- C3 counterexample: after a successful switch to camera 0 followed by a
`stop_all_cameras` whose termination steps raise, the handle pair is still
held while the state is `STOPPED`, which is outside
{Starting, Running, Stopping, Switching}. -/
theorem C3_counterexample :
    (Server.run initServer [Event.switchEv 0 cfg0 okStop okStart 5,
      Event.stopEv raiseStop]).sys.mgr.processes.isSome = true ∧
    (Server.run initServer [Event.switchEv 0 cfg0 okStop okStart 5,
      Event.stopEv raiseStop]).sys.mgr.camera_state = CameraState.STOPPED ∧
    (Server.run initServer [Event.switchEv 0 cfg0 okStop okStart 5,
      Event.stopEv raiseStop]).sys.mgr.camera_state ∉
      [CameraState.STARTING, CameraState.RUNNING, CameraState.STOPPING,
        CameraState.SWITCHING] := by
  decide

/-- C3 witness: the amended invariant applied to a concrete one-switch
trace. -/
theorem C3_witness :
    (∀ e ∈ [Event.switchEv 0 cfg0 okStop okStart 5], e.StopNoRaise) ∧
    ((Server.run initServer [Event.switchEv 0 cfg0 okStop okStart 5]).sys.mgr.processes.isSome ↔
      (Server.run initServer [Event.switchEv 0 cfg0 okStop okStart 5]).sys.mgr.camera_state =
        CameraState.RUNNING) :=
  ⟨List.forall_mem_singleton.mpr ⟨by decide, by decide⟩,
    C3_pair_iff_running [Event.switchEv 0 cfg0 okStop okStart 5]
      (List.forall_mem_singleton.mpr ⟨by decide, by decide⟩)⟩

/-- C4 (amended): when `_safe_start_camera` fails at a step at which the
handle pair has been recorded (settle-check death or manifest timeout — in
the model: both spawns succeeded) and no cleanup step raises, every spawned
process is terminated or killed before the call returns.  The unamended
claim — covering the case in which the second `Popen` raises — is refuted
by `C4_counterexample`: the already-spawned capture process is then not in
the handle dict, so `_cleanup_failed_start` never touches it and it is left
running. -/
theorem C4_tracked_failure_kills_spawned (camera_id : Nat)
    (config : CameraConfig) (e : StartEnv) (s : Sys)
    (h1 : e.rpicamSpawnOk = true) (h2 : e.ffmpegSpawnOk = true)
    (h3 : e.cleanupRpicamRaises = false) (h4 : e.cleanupFfmpegRaises = false)
    (h5 : (safe_start_camera camera_id config e s).1 = false) :
    e.rpicamPid ∉ (safe_start_camera camera_id config e s).2.running ∧
    e.ffmpegPid ∉ (safe_start_camera camera_id config e s).2.running := by
  obtain ⟨a1, p1, a2, p2, x1, x2, mf, c1, c2⟩ := e
  dsimp only at h1 h2 h3 h4 ⊢
  subst h1
  subst h2
  subst h3
  subst h4
  cases x1 <;> cases x2 <;> cases mf <;>
    first
    | exact cleanup_removes p1 p2 _ _ rfl rfl rfl
    | exact absurd ((safe_start_spec camera_id config _ s).1.symm.trans h5)
        (by simp [startSucceeds])

/-- C4 counterexample: from a fresh state, `rpicam-vid` spawns as pid 100
and then the `ffmpeg` `Popen` raises; the call returns failure with the
handle dict empty, yet pid 100 is still running — an orphaned process. -/
theorem C4_counterexample :
    (safe_start_camera 1 cfg0 ffSpawnFailStart initSys).1 = false ∧
    100 ∈ (safe_start_camera 1 cfg0 ffSpawnFailStart initSys).2.running ∧
    (safe_start_camera 1 cfg0 ffSpawnFailStart initSys).2.mgr.processes = none := by
  decide

/-- C4 witness: the amended theorem applied at the concrete
manifest-timeout scenario. -/
theorem C4_witness :
    noManifestStart.rpicamSpawnOk = true ∧
    noManifestStart.ffmpegSpawnOk = true ∧
    noManifestStart.cleanupRpicamRaises = false ∧
    noManifestStart.cleanupFfmpegRaises = false ∧
    (safe_start_camera 1 cfg0 noManifestStart initSys).1 = false ∧
    (noManifestStart.rpicamPid ∉
      (safe_start_camera 1 cfg0 noManifestStart initSys).2.running ∧
     noManifestStart.ffmpegPid ∉
      (safe_start_camera 1 cfg0 noManifestStart initSys).2.running) :=
  ⟨rfl, rfl, rfl, rfl, by decide,
    C4_tracked_failure_kills_spawned 1 cfg0 noManifestStart initSys rfl rfl rfl rfl
      (by decide)⟩

/-- C5 (amended): `_safe_stop_current_camera` clears the handle pair
exactly when it returns success; when it returns failure (a termination
step raised), the handle pair is left exactly as it was — it is NOT
cleared.  The unamended claim (handles cleared even on failure) is refuted
by `C5_counterexample`. -/
theorem C5_handles_cleared_iff_success (e : StopEnv) (s : Sys) :
    ((safe_stop_current_camera e s).1 = true →
      (safe_stop_current_camera e s).2.mgr.processes = none) ∧
    ((safe_stop_current_camera e s).1 = false →
      (safe_stop_current_camera e s).2.mgr.processes = s.mgr.processes ∧
        s.mgr.processes.isSome = true) := by
  constructor
  · intro ht
    rw [safe_stop_processes, ht]
    simp
  · intro hf
    refine ⟨?_, ((safe_stop_false_iff e s).mp hf).1⟩
    rw [safe_stop_processes, hf]
    simp

/-- C5 counterexample: with the pair 100/101 held, a teardown whose
termination steps raise returns failure with the handle pair still in
place, so a subsequent start is entered with leftover handles. -/
theorem C5_counterexample :
    (safe_stop_current_camera raiseStop runningSys0).1 = false ∧
    (safe_stop_current_camera raiseStop runningSys0).2.mgr.processes =
      some { rpicam := 100, ffmpeg := 101 } := by
  decide

/-- C5 witness: the amended theorem applied at the concrete clean-teardown
scenario. -/
theorem C5_witness :
    (safe_stop_current_camera okStop runningSys0).2.mgr.processes = none :=
  (C5_handles_cleared_iff_success okStop runningSys0).1 (by decide)

/-- C7 (amended): `stop_all_cameras` on a state with no handle pair is a
no-op success; after any call the state is `STOPPED`; and when a first call
returns success a second call in a row also returns success.  The
unamended claim (the second call always succeeds) is refuted by
`C7_counterexample`: if the first teardown raises, the pair survives and
the second call can fail again. -/
theorem C7_stop_all_idempotent_on_success (s : Sys) (e1 e2 : StopEnv) :
    (s.mgr.processes = none → (stop_all_cameras e1 s).1 = true) ∧
    (stop_all_cameras e1 s).2.mgr.camera_state = CameraState.STOPPED ∧
    (stop_all_cameras e2 (stop_all_cameras e1 s).2).2.mgr.camera_state =
      CameraState.STOPPED ∧
    ((stop_all_cameras e1 s).1 = true →
      (stop_all_cameras e2 (stop_all_cameras e1 s).2).1 = true) := by
  refine ⟨?_, (stop_all_spec e1 s).2.1, (stop_all_spec e2 _).2.1, ?_⟩
  · intro hp
    rw [(stop_all_spec e1 s).1]
    cases hr : (safe_stop_current_camera e1 s).1
    · have := ((safe_stop_false_iff e1 s).mp hr).1
      rw [hp] at this
      simp at this
    · rfl
  · intro h1
    rw [(stop_all_spec e2 _).1]
    cases hr : (safe_stop_current_camera e2 (stop_all_cameras e1 s).2).1
    · exfalso
      have hmem := ((safe_stop_false_iff e2 _).mp hr).1
      rw [(stop_all_spec e1 s).2.2.2.1, safe_stop_processes] at hmem
      rw [show (safe_stop_current_camera e1 s).1 = true from
        ((stop_all_spec e1 s).1).symm.trans h1] at hmem
      simp at hmem
    · rfl

/-- C7 counterexample: with the pair held and termination steps raising on
both calls, the second `stop_all_cameras` in a row returns failure, not
success. -/
theorem C7_counterexample :
    (stop_all_cameras raiseStop runningSys0).1 = false ∧
    (stop_all_cameras raiseStop
      (stop_all_cameras raiseStop runningSys0).2).1 = false := by
  decide

/-- C7 witness: the amended theorem applied at a fresh state: a first stop
is a no-op success and the second stop in a row also succeeds. -/
theorem C7_witness :
    (stop_all_cameras okStop initSys).1 = true ∧
    (stop_all_cameras raiseStop (stop_all_cameras okStop initSys).2).1 = true :=
  ⟨(C7_stop_all_idempotent_on_success initSys okStop raiseStop).1 rfl,
    (C7_stop_all_idempotent_on_success initSys okStop raiseStop).2.2.2
      ((C7_stop_all_idempotent_on_success initSys okStop raiseStop).1 rfl)⟩

/-- C8 (amended): `get_system_status` never propagates a failure (it is a
total function of its environment): a temperature-probe failure alone is
substituted per-field (temperature 0, all other fields keep their read
values), but a failure of the CPU, memory, disk or uptime read replaces
the ENTIRE snapshot by the sentinel (all zeros, uptime "unknown",
state Critical) — successfully read fields are not kept, refuting the
original per-field claim (`C8_counterexample`). -/
theorem C8_snapshot_failure_behavior (env : SysEnv) :
    ((env.cpuFails || env.memFails || env.diskFails || env.uptimeFails) = true →
      get_system_status env = sentinel_status env.now) ∧
    (env.cpuFails = false → env.memFails = false → env.diskFails = false →
      env.uptimeFails = false →
      get_system_status env =
        { cpu_percent := env.cpuVal,
          cpu_temp := if env.tempFails then 0 else env.tempVal,
          memory_percent := env.memVal,
          disk_percent := env.diskVal,
          uptime := uptime_str env.uptimeSeconds,
          state := classify_system_state env.cpuVal
            (if env.tempFails then 0 else env.tempVal) env.memVal,
          timestamp := env.now }) := by
  constructor
  · intro h
    simp only [Bool.or_eq_true] at h
    rcases h with ((hc | hm) | hd) | hu <;>
      simp [get_system_status, *]
  · intro h1 h2 h3 h4
    simp [get_system_status, h1, h2, h3, h4]

/-- C8 counterexample: the uptime read fails while the CPU probe succeeded
with 50 percent; the returned snapshot is the all-sentinel one and the CPU
field is 0, not the successfully read 50. -/
theorem C8_counterexample :
    get_system_status uptimeFailEnv = sentinel_status 7 ∧
    uptimeFailEnv.cpuFails = false ∧
    uptimeFailEnv.cpuVal = 50 ∧
    (get_system_status uptimeFailEnv).cpu_percent ≠ uptimeFailEnv.cpuVal := by
  decide

/-- C8 witness: the amended theorem applied at the concrete
temperature-only failure environment. -/
theorem C8_witness :
    tempFailEnv.cpuFails = false ∧
    get_system_status tempFailEnv =
      { cpu_percent := tempFailEnv.cpuVal,
        cpu_temp := if tempFailEnv.tempFails then 0 else tempFailEnv.tempVal,
        memory_percent := tempFailEnv.memVal,
        disk_percent := tempFailEnv.diskVal,
        uptime := uptime_str tempFailEnv.uptimeSeconds,
        state := classify_system_state tempFailEnv.cpuVal
          (if tempFailEnv.tempFails then 0 else tempFailEnv.tempVal)
          tempFailEnv.memVal,
        timestamp := tempFailEnv.now } :=
  ⟨rfl, (C8_snapshot_failure_behavior tempFailEnv).2 rfl rfl rfl rfl⟩

/-- C9: a registration attempt arriving when the observer count equals the
cap (`MAX_CONNECTIONS` = 12) is rejected: the websocket is closed with
code 1008 ("Maximum connections exceeded") and neither the observer list
nor the manager state changes. -/
theorem C9_connect_rejected_at_cap (cm : ConnectionManager) (ws : Nat)
    (mgr : ManagerState) (h : cm.active_connections.length = MAX_CONNECTIONS) :
    (cm.connect ws mgr).1 =
      ConnectResult.closed 1008 "Maximum connections exceeded" ∧
    (cm.connect ws mgr).2.1 = cm ∧
    (cm.connect ws mgr).2.2 = mgr := by
  unfold ConnectionManager.connect
  rw [h]
  simp

/-- C9 witness: the theorem applied at a concrete full observer list. -/
theorem C9_witness :
    cm12.active_connections.length = MAX_CONNECTIONS ∧
    ((cm12.connect 99 initManager).1 =
      ConnectResult.closed 1008 "Maximum connections exceeded" ∧
     (cm12.connect 99 initManager).2.1 = cm12 ∧
     (cm12.connect 99 initManager).2.2 = initManager) :=
  ⟨by decide, C9_connect_rejected_at_cap cm12 99 initManager (by decide)⟩

/-- C10: in every state reachable from the fresh server by any sequence of
switch, stop, protection-tick, connect and disconnect events, the mirrored
connection count never exceeds `MAX_CONNECTIONS`, so the connection-count
disjunct of `check_system_protection` (strictly-greater comparison against
the same constant) is false — protection can only be triggered by the CPU,
temperature or memory conditions. -/
theorem C10_connection_condition_never_triggers (es : List Event) :
    (Server.run initServer es).sys.mgr.active_connections ≤ MAX_CONNECTIONS ∧
    conn_condition (Server.run initServer es).sys.mgr = false := by
  have hinv := run_connInv es initServer ⟨rfl, by decide⟩
  refine ⟨?_, ?_⟩
  · rw [hinv.1]
    exact hinv.2
  · have hle : (Server.run initServer es).sys.mgr.active_connections ≤
        MAX_CONNECTIONS := by
      rw [hinv.1]; exact hinv.2
    simp only [conn_condition, protection_thresholds]
    simp only [decide_eq_false_iff_not, not_lt]
    exact hle

/-- C6: across every run of protection-check ticks, `stop_all_cameras` is
invoked at tick `i` exactly when the computed "should protect" value is
true and the stored flag is false at that tick (the false-to-true edge),
hence never while the flag is already true; and the flag evolves by the
edge-trigger rule — it turns true exactly on that edge and turns false
exactly on a tick with "should protect" false while the flag is true. -/
theorem C6_protection_edge_trigger (s : Sys) (ts : List (SystemStatus × StopEnv))
    (i : Nat) (h : i < ts.length) :
    tickInvoked s ts i =
      (should_protect (ts.get ⟨i, h⟩).1 s.mgr && !(flagBefore s ts i)) ∧
    flagBefore s ts (i + 1) =
      (if should_protect (ts.get ⟨i, h⟩).1 s.mgr && !(flagBefore s ts i) then true
       else if !(should_protect (ts.get ⟨i, h⟩).1 s.mgr) && flagBefore s ts i then
         false
       else flagBefore s ts i) := by
  induction ts generalizing s i with
  | nil => exact absurd h (Nat.not_lt_zero i)
  | cons t rest ih =>
    cases i with
    | zero =>
      constructor
      · show (check_system_protection_ev t.1 t.2 s).1.2 = _
        rw [check_ev_invoked]
        rfl
      · show (check_system_protection_ev t.1 t.2 s).2.mgr.system_protected = _
        rw [check_ev_flag]
        rfl
    | succ n =>
      have h' : n < rest.length := Nat.lt_of_succ_lt_succ h
      have key := ih (check_system_protection_ev t.1 t.2 s).2 n h'
      have hc : should_protect (rest.get ⟨n, h'⟩).1
            (check_system_protection_ev t.1 t.2 s).2.mgr =
          should_protect (rest.get ⟨n, h'⟩).1 s.mgr :=
        should_protect_congr _ (check_ev_conns t.1 t.2 s)
      rw [hc] at key
      exact key

/-- C6 witness: the edge-trigger theorem applied to a single-tick run with
CPU above threshold from an unprotected fresh state. -/
theorem C6_witness :
    0 < [(stats85, okStop)].length ∧
    tickInvoked initSys [(stats85, okStop)] 0 =
      (should_protect stats85 initSys.mgr &&
        !(flagBefore initSys [(stats85, okStop)] 0)) :=
  ⟨Nat.zero_lt_one,
    (C6_protection_edge_trigger initSys [(stats85, okStop)] 0 Nat.zero_lt_one).1⟩
